import Mathlib

/-!
# Verification of the reve-go retry/transport core

Shallow embedding of the Go sources `internal/transport/errors.go`,
`internal/transport/client.go` and `internal/validator/validator.go`.

Modelling conventions:
* Go `int` / HTTP status codes are `Int`; Go `time.Duration` (int64
  nanoseconds) is `Int`; Go `float64` arithmetic is idealized as `ℚ`,
  with the final `time.Duration(float64)` conversion modelled as
  truncation toward zero.
* External effects (the outcome of one network attempt, the result of
  the `select` race between the backoff timer and `ctx.Done()`, the
  value of `ctx.Err()` at a given check point, `json.Marshal` /
  `json.Unmarshal`) are oracle parameters: the control flow of the Go
  functions is translated literally over these oracles.
* `http.Header.Get` is modelled as a total function `String → String`
  returning `""` for an absent header, which is exactly Go's behaviour.
-/

namespace Reve

/-! ## errors.go: error codes and APIError -/

/-- `ErrCodeInvalidAPIKey` from errors.go. -/
def ErrCodeInvalidAPIKey : String := "INVALID_API_KEY"

/-- `ErrCodeInsufficientFunds` from errors.go. -/
def ErrCodeInsufficientFunds : String := "INSUFFICIENT_CREDITS"

/-- `ErrCodeRateLimit` from errors.go. -/
def ErrCodeRateLimit : String := "RATE_LIMIT_EXCEEDED"

/-- `ErrCodeInternal` from errors.go. -/
def ErrCodeInternal : String := "INTERNAL_ERROR"

/-- `APIError` from errors.go (the `Params map[string]any` field is
modelled as an association list of rendered values; no claim touches it). -/
structure APIError where
  code : String
  message : String
  params : List (String × String)
  statusCode : Int
  requestId : String
deriving DecidableEq, Repr

/-- `isRetryableStatus` from errors.go: the Go `switch` on
429 (TooManyRequests), 500 (InternalServerError), 502 (BadGateway),
503 (ServiceUnavailable), 504 (GatewayTimeout). -/
def isRetryableStatus (code : Int) : Bool :=
  code == 429 || code == 500 || code == 502 || code == 503 || code == 504

/-- `(*APIError).Retryable` from errors.go. -/
def APIError.Retryable (e : APIError) : Bool :=
  isRetryableStatus e.statusCode

/-- `http.StatusText` (net/http) for the statuses exercised by this
code base; Go returns `""` for an unrecognized code. -/
def statusText (code : Int) : String :=
  if code == 400 then "Bad Request"
  else if code == 401 then "Unauthorized"
  else if code == 402 then "Payment Required"
  else if code == 403 then "Forbidden"
  else if code == 404 then "Not Found"
  else if code == 429 then "Too Many Requests"
  else if code == 500 then "Internal Server Error"
  else if code == 502 then "Bad Gateway"
  else if code == 503 then "Service Unavailable"
  else if code == 504 then "Gateway Timeout"
  else ""

/-- The structured error payload `json.Unmarshal` decodes into an
`APIError` (fields `error_code`, `message`, `params`). A decode result
of `none` models `json.Unmarshal` returning an error. -/
structure ErrPayload where
  code : String
  message : String
  params : List (String × String)
deriving DecidableEq, Repr

/-- `ParseError` from errors.go, with the `json.Unmarshal` outcome
passed as the oracle `decoded`. `status` and `requestId` come from the
`*http.Response`; `body` is the response body text. -/
def ParseError (status : Int) (requestId : String) (body : String)
    (decoded : Option ErrPayload) : APIError :=
  let apiErr : APIError :=
    match decoded with
    | some p => { code := p.code, message := p.message, params := p.params,
                  statusCode := status, requestId := requestId }
    | none =>
        { code := "", message := if body == "" then statusText status else body,
          params := [], statusCode := status, requestId := requestId }
  if apiErr.code == "" then
    { apiErr with code :=
        if status == 401 then ErrCodeInvalidAPIKey
        else if status == 402 then ErrCodeInsufficientFunds
        else if status == 429 then ErrCodeRateLimit
        else if status == 500 then ErrCodeInternal
        else apiErr.code }
  else apiErr

/-! ## client.go: response types -/

/-- `Response` from client.go (a JSON response). -/
structure Response where
  body : String
  status : Int
  requestId : String
deriving DecidableEq, Repr

/-- `RawResponse` from client.go (a binary response; the payload is
modelled as a `String` of bytes). -/
structure RawResponse where
  data : String
  contentType : String
  version : String
  contentViolation : Bool
  requestId : String
  creditsUsed : Int
  creditsRemaining : Int
deriving DecidableEq, Repr

/-! ## errors.go: Retrier -/

/-- A Go `error` value as it flows through the retry loop: an
`*APIError`, a `*RequestError` (tagged by its `Op`), or a context
error (`context.Canceled` / `context.DeadlineExceeded`). -/
inductive GoError where
  | api (e : APIError)
  | request (op : String)
  | canceled
  | deadlineExceeded
deriving DecidableEq, Repr

/-- `(*Retrier).shouldRetry` from errors.go: the type assertion
`err.(*APIError)` succeeds only on the `api` constructor; every other
error kind is not retryable. (The Go receiver is unused.) -/
def shouldRetry : GoError → Bool
  | .api e => e.Retryable
  | _ => false

/-- `Retrier` from errors.go. `maxRetries` is a `Nat` (every
construction site passes a nonnegative count); the waits are
`time.Duration` nanoseconds. -/
structure Retrier where
  maxRetries : Nat
  minWait : Int
  maxWait : Int
deriving DecidableEq, Repr

/-- Go's `time.Duration(f)` conversion from `float64`: truncation
toward zero. -/
def durOfFloat (q : ℚ) : Int :=
  if 0 ≤ q then ⌊q⌋ else ⌈q⌉

/-- `(*Retrier).calculateBackoff` from errors.go. The `float64`
arithmetic is idealized over `ℚ`; `u` stands for the value of
`rand.Float64()*2 - 1`, so the Go jitter `backoff * 0.25 * (rand.Float64()*2 - 1)`
is `backoff * (1/4) * u`. -/
def Retrier.calculateBackoff (r : Retrier) (attempt : Nat) (u : ℚ) : Int :=
  let backoff : ℚ := (r.minWait : ℚ) * 2 ^ (attempt - 1)
  let jitter : ℚ := backoff * (1 / 4) * u
  let backoff := backoff + jitter
  let backoff := if backoff > (r.maxWait : ℚ) then (r.maxWait : ℚ) else backoff
  durOfFloat backoff

/-- The body of the retry loop shared by `(*Retrier).Do` and
`(*Retrier).DoRaw` (errors.go), translated literally over three
oracles:
* `fn i` is the outcome of the `fn()` call on loop iteration `i`
  (Go's 0-based `attempt` index);
* `waitCancel i` is the outcome of `r.wait(ctx, i)`: `some e` when
  `ctx.Done()` wins the `select` race against the backoff timer (the
  code then returns `ctx.Err() = e`), `none` when the timer fires;
* `ctxErr i` is the value of `ctx.Err()` at the check following a
  retryable failure of attempt `i`.
Arguments: current attempt index, remaining loop iterations
(initially `maxRetries + 1`), Go's `lastErr` variable, and the number
of `fn()` calls made so far. Returns the Go result together with that
attempt count. The fuel-exhausted case is Go's `return nil, lastErr`
after the loop; `lastErr` is always set there when the loop ran. -/
def doLoop {ρ : Type} (fn : Nat → Except GoError ρ)
    (waitCancel ctxErr : Nat → Option GoError) :
    Nat → Nat → Option GoError → Nat → Except GoError ρ × Nat
  | _, 0, lastErr, made => (.error (lastErr.getD (GoError.request "unreachable")), made)
  | attempt, fuel + 1, _, made =>
    match (if attempt > 0 then waitCancel attempt else none) with
    | some e => (.error e, made)
    | none =>
      match fn attempt with
      | .ok resp => (.ok resp, made + 1)
      | .error err =>
        if shouldRetry err then
          match ctxErr attempt with
          | some ce => (.error ce, made + 1)
          | none => doLoop fn waitCancel ctxErr (attempt + 1) fuel (some err) (made + 1)
        else (.error err, made + 1)

/-- `(*Retrier).Do` from errors.go, instantiated at `Response`. -/
def Retrier.Do (r : Retrier) (fn : Nat → Except GoError Response)
    (waitCancel ctxErr : Nat → Option GoError) : Except GoError Response × Nat :=
  doLoop fn waitCancel ctxErr 0 (r.maxRetries + 1) none 0

/-- `(*Retrier).DoRaw` from errors.go, instantiated at `RawResponse`;
the Go source duplicates the loop of `Do` verbatim at the other
payload type. -/
def Retrier.DoRaw (r : Retrier) (fn : Nat → Except GoError RawResponse)
    (waitCancel ctxErr : Nat → Option GoError) : Except GoError RawResponse × Nat :=
  doLoop fn waitCancel ctxErr 0 (r.maxRetries + 1) none 0

/-! ## client.go: header parsing, executeRaw, buildRequest -/

/-- Value of a decimal digit string. -/
def digitsVal (ds : List Char) : Nat :=
  ds.foldl (fun a c => a * 10 + (c.toNat - 48)) 0

/-- Longest digit prefix of `cs`, as a number; `none` when there is no
leading digit. -/
def leadingNat (cs : List Char) : Option Nat :=
  let ds := cs.takeWhile (·.isDigit)
  if ds.isEmpty then none else some (digitsVal ds)

/-- `fmt.Sscanf(val, "%d", &n)`: skip leading whitespace, read an
optional sign and a digit run; `none` models the verb failing, in
which case Go leaves `n` at its zero value. -/
def sscanfD (s : String) : Option Int :=
  match s.toList.dropWhile (·.isWhitespace) with
  | '-' :: rest => (leadingNat rest).map (fun n => -(n : Int))
  | '+' :: rest => (leadingNat rest).map (fun n => (n : Int))
  | cs => (leadingNat cs).map (fun n => (n : Int))

/-- `parseIntHeader` from client.go: headers are the `Get` function of
the response's header map (`""` for an absent key). -/
def parseIntHeader (headers : String → String) (key : String) : Int :=
  let val := headers key
  if val == "" then 0
  else (sscanfD val).getD 0

/-- `(*Client).executeRaw` from client.go, from the point the request
has been built. Oracles: `headers`/`status`/`body` describe the
received `*http.Response` (`body` is what `io.ReadAll` yields),
`decoded` is the `json.Unmarshal` outcome inside `ParseError`,
`netFail` models `c.httpClient.Do` failing, and `readFail` models
`io.ReadAll` failing on the success path. -/
def executeRaw (headers : String → String) (status : Int) (body : String)
    (decoded : Option ErrPayload) (netFail readFail : Bool) :
    Except GoError RawResponse :=
  if netFail then .error (.request "http")
  else if headers "X-Reve-Error-Code" != "" then
    .error (.api (ParseError status (headers "X-Reve-Request-Id") body decoded))
  else if readFail then .error (.request "read response")
  else .ok
    { data := body
      contentType := headers "Content-Type"
      version := headers "X-Reve-Version"
      contentViolation := headers "X-Reve-Content-Violation" == "true"
      requestId := headers "X-Reve-Request-Id"
      creditsUsed := parseIntHeader headers "X-Reve-Credits-Used"
      creditsRemaining := parseIntHeader headers "X-Reve-Credits-Remaining" }

/-- `Request` from client.go; the structured body's Go type is the
parameter `β`. -/
structure Request (β : Type) where
  method : String
  path : String
  body : Option β
  accept : String
  breadcrumb : String

/-- The parts of the built `*http.Request` that `buildRequest` sets:
URL, the bytes behind the body reader, the `GetBody` re-read accessor
(each invocation returns its result), and the headers. -/
structure HttpRequest where
  method : String
  url : String
  bodyBytes : Option String
  getBody : Option (Unit → String)
  headers : List (String × String)

/-- `(*Client).buildRequest` from client.go. `jsonMarshal` is the
`json.Marshal` oracle for the body type; its success yields the
serialized bytes. (`http.NewRequestWithContext` on a plain
concatenated URL is modelled as succeeding.) -/
def buildRequest {β : Type} (baseURL apiKey userAgent : String)
    (jsonMarshal : β → Except String String) (req : Request β) :
    Except GoError HttpRequest :=
  let url := baseURL ++ req.path
  let url := if req.breadcrumb != "" then url ++ "?breadcrumb=" ++ req.breadcrumb else url
  let accept := if req.accept != "" then req.accept else "application/json"
  let mkHeaders : List (String × String) :=
    [("Authorization", "Bearer " ++ apiKey),
     ("Content-Type", "application/json"),
     ("User-Agent", userAgent),
     ("Accept", accept)]
  match req.body with
  | none =>
      .ok { method := req.method, url := url, bodyBytes := none, getBody := none,
            headers := mkHeaders }
  | some b =>
      match jsonMarshal b with
      | .error _ => .error (.request "marshal")
      | .ok data =>
          .ok { method := req.method, url := url, bodyBytes := some data,
                getBody := some (fun _ => data), headers := mkHeaders }

/-! ## validator/validator.go -/

/-- The validation error values from validator.go. -/
inductive ValidationError where
  | errEmptyPrompt
  | errPromptTooLong
  | errEmptyInstruction
  | errEmptyReferenceImage
  | errNoReferenceImages
  | errTooManyReferenceImages
  | errInvalidAspectRatio
  | errInvalidUpscaleFactor
  | errInvalidScaling
deriving DecidableEq, Repr

/-- `MinScaling` from validator.go (`1.0`). -/
def MinScaling : ℚ := 1

/-- `MaxScaling` from validator.go (`15.0`). -/
def MaxScaling : ℚ := 15

/-- `ValidateScaling` from validator.go; the `float64` argument is
idealized as `ℚ` (all comparisons involved are exact on floats). -/
def ValidateScaling (scaling : ℚ) : Option ValidationError :=
  if scaling = 0 then none
  else if scaling < MinScaling ∨ scaling > MaxScaling then some .errInvalidScaling
  else none

/-! ## Lemmas about the retry loop -/

section RetrierLemmas

variable {ρ : Type} (fn : Nat → Except GoError ρ) (waitCancel ctxErr : Nat → Option GoError)

/-- One loop iteration at index `a` whose attempt fails retryably and
sees neither cancellation signal advances the loop. -/
lemma doLoop_step (a fuel : Nat) (lastErr : Option GoError) (made : Nat) (err : GoError)
    (hw : a ≠ 0 → waitCancel a = none)
    (hf : fn a = .error err) (hr : shouldRetry err = true) (hc : ctxErr a = none) :
    doLoop fn waitCancel ctxErr a (fuel + 1) lastErr made =
      doLoop fn waitCancel ctxErr (a + 1) fuel (some err) (made + 1) := by
  rcases Nat.eq_zero_or_pos a with h0 | hpos
  · subst h0
    simp [doLoop, hf, hr, hc]
  · have hne : a ≠ 0 := Nat.pos_iff_ne_zero.mp hpos
    simp [doLoop, hpos, hw hne, hf, hr, hc]

/-- A run of `n` consecutive retryable failures, free of cancellation
signals, advances the loop by `n` iterations, accumulating the last
error and `n` attempts. -/
lemma doLoop_run (e : Nat → GoError) (n : Nat) :
    ∀ (a fuel : Nat) (lastErr : Option GoError) (made : Nat),
      (∀ i, a ≤ i → i < a + n → fn i = .error (e i)) →
      (∀ i, a ≤ i → i < a + n → shouldRetry (e i) = true) →
      (∀ i, a ≤ i → i < a + n → ctxErr i = none) →
      (∀ i, a ≤ i → i < a + n → i ≠ 0 → waitCancel i = none) →
      doLoop fn waitCancel ctxErr a (n + fuel) lastErr made =
        doLoop fn waitCancel ctxErr (a + n) fuel
          (if n = 0 then lastErr else some (e (a + n - 1))) (made + n) := by
  induction n with
  | zero =>
    intro a fuel lastErr made _ _ _ _
    simp
  | succ n ih =>
    intro a fuel lastErr made hf hr hc hw
    rw [show n + 1 + fuel = (n + fuel) + 1 from by omega]
    rw [doLoop_step fn waitCancel ctxErr a (n + fuel) lastErr made (e a)
        (fun hne => hw a (le_refl a) (by omega) hne)
        (hf a (le_refl a) (by omega)) (hr a (le_refl a) (by omega))
        (hc a (le_refl a) (by omega))]
    rw [ih (a + 1) fuel (some (e a)) (made + 1)
        (fun i h1 h2 => hf i (by omega) (by omega))
        (fun i h1 h2 => hr i (by omega) (by omega))
        (fun i h1 h2 => hc i (by omega) (by omega))
        (fun i h1 h2 hne => hw i (by omega) (by omega) hne)]
    have ha : a + 1 + n = a + (n + 1) := by omega
    have hm : made + 1 + n = made + (n + 1) := by omega
    have hl : (if n = 0 then some (e a) else some (e (a + (n + 1) - 1))) =
        (if n + 1 = 0 then lastErr else some (e (a + (n + 1) - 1))) := by
      rcases Nat.eq_zero_or_pos n with h | h
      · subst h
        simp
      · rw [if_neg (by omega), if_neg (by omega)]
    rw [ha, hm, hl]

/-- First success at (0-based) attempt `k ≤ maxRetries` after `k`
retryable failures: the loop returns it after exactly `k + 1` attempts. -/
lemma doLoop_success (maxR k : Nat) (resp : ρ) (e : Nat → GoError)
    (hk : k ≤ maxR)
    (hf : ∀ i, i < k → fn i = .error (e i))
    (hr : ∀ i, i < k → shouldRetry (e i) = true)
    (hc : ∀ i, i < k → ctxErr i = none)
    (hw : ∀ i, 1 ≤ i → i ≤ k → waitCancel i = none)
    (hok : fn k = .ok resp) :
    doLoop fn waitCancel ctxErr 0 (maxR + 1) none 0 = (.ok resp, k + 1) := by
  rw [show maxR + 1 = k + ((maxR - k) + 1) from by omega]
  rw [doLoop_run fn waitCancel ctxErr e k 0 ((maxR - k) + 1) none 0
      (fun i h1 h2 => hf i (by omega)) (fun i h1 h2 => hr i (by omega))
      (fun i h1 h2 => hc i (by omega)) (fun i h1 h2 hne => hw i (by omega) (by omega))]
  rw [show (0 : Nat) + k = k from by omega]
  rcases Nat.eq_zero_or_pos k with hk0 | hkpos
  · subst hk0
    simp [doLoop, hok]
  · have hwk : waitCancel k = none := hw k hkpos (le_refl k)
    simp [doLoop, hkpos, hwk, hok]

/-- All `maxRetries + 1` attempts fail retryably without cancellation:
the loop returns the last error after exactly `maxRetries + 1` attempts. -/
lemma doLoop_exhaust (maxR : Nat) (e : Nat → GoError)
    (hf : ∀ i, i ≤ maxR → fn i = .error (e i))
    (hr : ∀ i, i ≤ maxR → shouldRetry (e i) = true)
    (hc : ∀ i, i ≤ maxR → ctxErr i = none)
    (hw : ∀ i, 1 ≤ i → i ≤ maxR → waitCancel i = none) :
    doLoop fn waitCancel ctxErr 0 (maxR + 1) none 0 = (.error (e maxR), maxR + 1) := by
  have h := doLoop_run fn waitCancel ctxErr e (maxR + 1) 0 0 none 0
      (fun i h1 h2 => hf i (by omega)) (fun i h1 h2 => hr i (by omega))
      (fun i h1 h2 => hc i (by omega)) (fun i h1 h2 hne => hw i (by omega) (by omega))
  rw [show maxR + 1 + 0 = maxR + 1 from rfl] at h
  rw [h]
  simp [doLoop]

/-- A non-retryable failure at (0-based) attempt `k` after `k` clean
retryable failures: the loop returns that error after `k + 1` attempts. -/
lemma doLoop_nonretryable (maxR k : Nat) (err : GoError) (e : Nat → GoError)
    (hk : k ≤ maxR)
    (hf : ∀ i, i < k → fn i = .error (e i))
    (hr : ∀ i, i < k → shouldRetry (e i) = true)
    (hc : ∀ i, i < k → ctxErr i = none)
    (hw : ∀ i, 1 ≤ i → i ≤ k → waitCancel i = none)
    (hfk : fn k = .error err) (hnr : shouldRetry err = false) :
    doLoop fn waitCancel ctxErr 0 (maxR + 1) none 0 = (.error err, k + 1) := by
  rw [show maxR + 1 = k + ((maxR - k) + 1) from by omega]
  rw [doLoop_run fn waitCancel ctxErr e k 0 ((maxR - k) + 1) none 0
      (fun i h1 h2 => hf i (by omega)) (fun i h1 h2 => hr i (by omega))
      (fun i h1 h2 => hc i (by omega)) (fun i h1 h2 hne => hw i (by omega) (by omega))]
  rw [show (0 : Nat) + k = k from by omega]
  rcases Nat.eq_zero_or_pos k with hk0 | hkpos
  · subst hk0
    simp [doLoop, hfk, hnr]
  · have hwk : waitCancel k = none := hw k hkpos (le_refl k)
    simp [doLoop, hkpos, hwk, hfk, hnr]

/-- Cancellation wins the backoff race before (0-based) attempt
`k ≥ 1`: the loop aborts with the context's error after exactly `k`
attempts, never calling `fn k`. -/
lemma doLoop_waitCancel (maxR k : Nat) (ce : GoError) (e : Nat → GoError)
    (hk1 : 1 ≤ k) (hk : k ≤ maxR)
    (hf : ∀ i, i < k → fn i = .error (e i))
    (hr : ∀ i, i < k → shouldRetry (e i) = true)
    (hc : ∀ i, i < k → ctxErr i = none)
    (hw : ∀ i, 1 ≤ i → i < k → waitCancel i = none)
    (hwk : waitCancel k = some ce) :
    doLoop fn waitCancel ctxErr 0 (maxR + 1) none 0 = (.error ce, k) := by
  rw [show maxR + 1 = k + ((maxR - k) + 1) from by omega]
  rw [doLoop_run fn waitCancel ctxErr e k 0 ((maxR - k) + 1) none 0
      (fun i h1 h2 => hf i (by omega)) (fun i h1 h2 => hr i (by omega))
      (fun i h1 h2 => hc i (by omega)) (fun i h1 h2 hne => hw i (by omega) (by omega))]
  rw [show (0 : Nat) + k = k from by omega]
  simp [doLoop, Nat.lt_of_lt_of_le Nat.zero_lt_one hk1, hwk]

/-- A retryable failure at (0-based) attempt `k` with the context
already cancelled at the post-attempt check: the loop returns the
context's error (not the API error) after `k + 1` attempts. -/
lemma doLoop_ctxAfterFail (maxR k : Nat) (errk ce : GoError) (e : Nat → GoError)
    (hk : k ≤ maxR)
    (hf : ∀ i, i < k → fn i = .error (e i))
    (hr : ∀ i, i < k → shouldRetry (e i) = true)
    (hc : ∀ i, i < k → ctxErr i = none)
    (hw : ∀ i, 1 ≤ i → i ≤ k → waitCancel i = none)
    (hfk : fn k = .error errk) (hrk : shouldRetry errk = true)
    (hck : ctxErr k = some ce) :
    doLoop fn waitCancel ctxErr 0 (maxR + 1) none 0 = (.error ce, k + 1) := by
  rw [show maxR + 1 = k + ((maxR - k) + 1) from by omega]
  rw [doLoop_run fn waitCancel ctxErr e k 0 ((maxR - k) + 1) none 0
      (fun i h1 h2 => hf i (by omega)) (fun i h1 h2 => hr i (by omega))
      (fun i h1 h2 => hc i (by omega)) (fun i h1 h2 hne => hw i (by omega) (by omega))]
  rw [show (0 : Nat) + k = k from by omega]
  rcases Nat.eq_zero_or_pos k with hk0 | hkpos
  · subst hk0
    simp [doLoop, hfk, hrk, hck]
  · have hwk : waitCancel k = none := hw k hkpos (le_refl k)
    simp [doLoop, hkpos, hwk, hfk, hrk, hck]

end RetrierLemmas

/-! ## Claim theorems -/

/-- C2: the retry verdict `APIError.Retryable` is a pure function of
the HTTP status — errors with equal statuses get equal verdicts
whatever their codes — and `isRetryableStatus` holds exactly for the
statuses 429, 500, 502, 503 and 504. -/
theorem retryable_verdict_pure_status (e : APIError) :
    e.Retryable = isRetryableStatus e.statusCode ∧
    (∀ e₂ : APIError, e.statusCode = e₂.statusCode → e.Retryable = e₂.Retryable) ∧
    ∀ s : Int, isRetryableStatus s = true ↔
      (s = 429 ∨ s = 500 ∨ s = 502 ∨ s = 503 ∨ s = 504) := by
  refine ⟨rfl, fun e₂ h => ?_, fun s => ?_⟩
  · simp [APIError.Retryable, h]
  · simp only [isRetryableStatus, Bool.or_eq_true, beq_iff_eq]
    tauto

/-- C2 witness: a 503 error is retryable whatever its code, via the
purity and membership conjuncts at status 503. -/
theorem retryable_verdict_pure_status_witness :
    APIError.Retryable ⟨"SOME_CODE", "m", [], 503, "r"⟩ = isRetryableStatus 503 ∧
    isRetryableStatus 503 = true :=
  ⟨(retryable_verdict_pure_status ⟨"SOME_CODE", "m", [], 503, "r"⟩).1,
    ((retryable_verdict_pure_status ⟨"SOME_CODE", "m", [], 503, "r"⟩).2.2 503).mpr
      (by norm_num)⟩

/-- C9 counterexample: `ValidateScaling 0` accepts (returns no error)
although `0` does not lie in `[MinScaling, MaxScaling] = [1, 15]`, so
"nil iff 1 ≤ s ≤ 15" fails at `s = 0`. -/
theorem validateScaling_zero_counterexample :
    ValidateScaling 0 = none ∧ ¬(MinScaling ≤ (0 : ℚ) ∧ (0 : ℚ) ≤ MaxScaling) := by
  refine ⟨by simp [ValidateScaling], fun h => ?_⟩
  have h1 := h.1
  norm_num [MinScaling] at h1

/-- C9 amended: `ValidateScaling s` returns nil exactly when `s = 0`
(the unset zero value skips the check) or `1 ≤ s ≤ 15`. -/
theorem validateScaling_accepts_iff (s : ℚ) :
    ValidateScaling s = none ↔ (s = 0 ∨ (MinScaling ≤ s ∧ s ≤ MaxScaling)) := by
  constructor
  · intro h
    by_cases h1 : s = 0
    · exact Or.inl h1
    · right
      by_cases h2 : s < MinScaling ∨ s > MaxScaling
      · rw [ValidateScaling, if_neg h1, if_pos h2] at h
        cases h
      · push_neg at h2
        exact h2
  · intro h
    rcases h with h1 | ⟨h2, h3⟩
    · rw [ValidateScaling, if_pos h1]
    · by_cases h1 : s = 0
      · rw [ValidateScaling, if_pos h1]
      · rw [ValidateScaling, if_neg h1,
          if_neg (not_or.mpr ⟨not_lt.mpr h2, not_lt.mpr h3⟩)]

/-- C6: `ParseError` falls back to the raw body text — or the
standard status text when the body is empty — whenever the body does
not decode, and infers the code from the status
(401 → invalid-credential, 402 → insufficient-balance,
429 → rate-limit, 500 → internal, otherwise empty) whenever no
explicit code is present; status and request id are always carried
over. -/
theorem parseError_fallback_and_inference (status : Int) (requestId : String)
    (body : String) (decoded : Option ErrPayload) :
    (decoded = none →
      (ParseError status requestId body decoded).message =
        (if body == "" then statusText status else body)) ∧
    ((∀ p, decoded = some p → p.code = "") →
      (ParseError status requestId body decoded).code =
        (if status == 401 then ErrCodeInvalidAPIKey
         else if status == 402 then ErrCodeInsufficientFunds
         else if status == 429 then ErrCodeRateLimit
         else if status == 500 then ErrCodeInternal
         else "")) ∧
    (ParseError status requestId body decoded).statusCode = status ∧
    (ParseError status requestId body decoded).requestId = requestId := by
  rcases decoded with _ | p
  · refine ⟨fun _ => ?_, fun _ => ?_, ?_, ?_⟩ <;>
      simp [ParseError]
  · refine ⟨?_, ?_, ?_, ?_⟩
    · intro h
      cases h
    · intro h
      have hp : p.code = "" := h p rfl
      simp [ParseError, hp]
    · simp only [ParseError]
      split_ifs <;> rfl
    · simp only [ParseError]
      split_ifs <;> rfl

/-- C6 witness: a 402 response with an empty, undecodable body gets
the standard status text as message and the inferred
insufficient-balance code. -/
theorem parseError_fallback_and_inference_witness :
    (ParseError 402 "r" "" none).message = "Payment Required" ∧
    (ParseError 402 "r" "" none).code = ErrCodeInsufficientFunds := by
  have h := parseError_fallback_and_inference 402 "r" "" none
  refine ⟨?_, ?_⟩
  · have h1 := h.1 rfl
    simpa [statusText] using h1
  · have h2 := h.2.1 (fun p hp => by cases hp)
    simpa using h2

/-- C5: in raw mode a non-empty `X-Reve-Error-Code` header makes the
call fail with the classified API error whatever the status (in
particular on 2xx); otherwise the call succeeds with
`ContentViolation` true exactly when the `X-Reve-Content-Violation`
header is the literal `"true"` and the credit counters parsed by
`parseIntHeader`, which yields `0` — never an error — on an absent or
unparsable header. -/
theorem executeRaw_error_header_and_metadata (headers : String → String)
    (status : Int) (body : String) (decoded : Option ErrPayload) :
    (∀ readFail : Bool, headers "X-Reve-Error-Code" ≠ "" →
      executeRaw headers status body decoded false readFail =
        .error (.api (ParseError status (headers "X-Reve-Request-Id") body decoded))) ∧
    (headers "X-Reve-Error-Code" = "" →
      executeRaw headers status body decoded false false =
        .ok { data := body
              contentType := headers "Content-Type"
              version := headers "X-Reve-Version"
              contentViolation := headers "X-Reve-Content-Violation" == "true"
              requestId := headers "X-Reve-Request-Id"
              creditsUsed := parseIntHeader headers "X-Reve-Credits-Used"
              creditsRemaining := parseIntHeader headers "X-Reve-Credits-Remaining" }) ∧
    (∀ h : String → String, ∀ key, h key = "" → parseIntHeader h key = 0) ∧
    (∀ h : String → String, ∀ key, sscanfD (h key) = none → parseIntHeader h key = 0) := by
  refine ⟨?_, ?_, ?_, ?_⟩
  · intro readFail hne
    simp [executeRaw, bne_iff_ne, hne]
  · intro heq
    simp [executeRaw, heq]
  · intro h key hk
    simp [parseIntHeader, hk]
  · intro h key hk
    simp [parseIntHeader, hk]

/-- C5 witness: a 200 response carrying `X-Reve-Error-Code: E23` is a
failure classified through `ParseError`, and an unparsable credit
header parses to 0. -/
theorem executeRaw_error_header_witness :
    executeRaw (fun k => if k = "X-Reve-Error-Code" then "E23" else "") 200 "b" none
        false false =
      .error (.api (ParseError 200 "" "b" none)) ∧
    parseIntHeader (fun _ => "abc") "X-Reve-Credits-Used" = 0 := by
  constructor
  · have h := (executeRaw_error_header_and_metadata
        (fun k => if k = "X-Reve-Error-Code" then "E23" else "") 200 "b" none).1
        false (by simp)
    simpa using h
  · exact (executeRaw_error_header_and_metadata (fun _ => "") 0 "" none).2.2.2
      (fun _ => "abc") "X-Reve-Credits-Used" rfl

/-- C8: when the request descriptor carries a structured body that
serializes, `buildRequest` stores the serialized bytes as the request
body and installs a `GetBody` accessor every invocation of which
returns exactly those bytes. -/
theorem buildRequest_replayable_body {β : Type} (baseURL apiKey userAgent : String)
    (jsonMarshal : β → Except String String) (req : Request β) (b : β) (data : String)
    (hb : req.body = some b) (hm : jsonMarshal b = .ok data) :
    ∃ hr : HttpRequest,
      buildRequest baseURL apiKey userAgent jsonMarshal req = .ok hr ∧
      hr.bodyBytes = some data ∧
      ∃ f, hr.getBody = some f ∧ ∀ u : Unit, f u = data := by
  simp only [buildRequest, hb, hm]
  exact ⟨_, rfl, rfl, _, rfl, fun _ => rfl⟩

/-- C8 witness: a concrete descriptor whose body serializes to `"x!"`
gets a replayable accessor returning `"x!"` on every call. -/
theorem buildRequest_replayable_body_witness :
    ∃ hr : HttpRequest,
      buildRequest "B" "K" "UA" (fun s : String => Except.ok (s ++ "!"))
          ⟨"POST", "/p", some "x", "", ""⟩ = .ok hr ∧
      hr.bodyBytes = some "x!" ∧
      ∃ f, hr.getBody = some f ∧ ∀ u : Unit, f u = "x!" :=
  buildRequest_replayable_body "B" "K" "UA" (fun s : String => Except.ok (s ++ "!"))
    ⟨"POST", "/p", some "x", "", ""⟩ "x" "x!" rfl rfl

/-- The Go clamp `if x > y { x = y }` is a minimum. -/
lemma clamp_eq_min (x y : ℚ) : (if x > y then y else x) = min x y := by
  rcases le_or_lt x y with h | h
  · rw [if_neg (not_lt.mpr h), min_eq_left h]
  · rw [if_pos h, min_eq_right h.le]

/-- Truncation toward zero is the identity on integers. -/
lemma durOfFloat_intCast (n : Int) : durOfFloat (n : ℚ) = n := by
  unfold durOfFloat
  split_ifs <;> simp

/-- `calculateBackoff` as a closed formula: clamp of base plus jitter. -/
lemma calculateBackoff_eq (minW maxW : Int) (a : Nat) (u : ℚ) :
    Retrier.calculateBackoff ⟨0, minW, maxW⟩ a u =
      durOfFloat (min ((minW : ℚ) * 2 ^ (a - 1) +
        (minW : ℚ) * 2 ^ (a - 1) * (1 / 4) * u) (maxW : ℚ)) := by
  simp only [Retrier.calculateBackoff]
  rw [clamp_eq_min]

/-- C4: the backoff is the truncation of
`minWait·2^(a−1) + jitter` clamped above by `maxWait` and not below
(the formula conjunct), equals `min(minWait·2^(a−1), maxWait)`
exactly at zero jitter, stays within `[0, maxWait]` for every jitter
`u ∈ [−1, 1]` (the Go jitter being `base·0.25·u`), and can drop below
`minWait` (shown at minWait = 4ns, maxWait = 100ns, attempt 1, u = −1,
where it returns 3). -/
theorem calculateBackoff_bounds (minW maxW : Int) (a : Nat) (u : ℚ)
    (ha : 1 ≤ a) (hmin : 0 ≤ minW) (hmax : 0 ≤ maxW) (hu1 : -1 ≤ u) (hu2 : u ≤ 1) :
    (Retrier.calculateBackoff ⟨0, minW, maxW⟩ a u =
      durOfFloat (min ((minW : ℚ) * 2 ^ (a - 1) +
        (minW : ℚ) * 2 ^ (a - 1) * (1 / 4) * u) (maxW : ℚ))) ∧
    Retrier.calculateBackoff ⟨0, minW, maxW⟩ a 0 = min (minW * 2 ^ (a - 1)) maxW ∧
    0 ≤ Retrier.calculateBackoff ⟨0, minW, maxW⟩ a u ∧
    Retrier.calculateBackoff ⟨0, minW, maxW⟩ a u ≤ maxW ∧
    Retrier.calculateBackoff ⟨0, 4, 100⟩ 1 (-1) < 4 := by
  have hbase : (0 : ℚ) ≤ (minW : ℚ) * 2 ^ (a - 1) := by positivity
  have hbpre : (0 : ℚ) ≤ (minW : ℚ) * 2 ^ (a - 1) +
      (minW : ℚ) * 2 ^ (a - 1) * (1 / 4) * u := by
    nlinarith [hbase, hu1]
  have hmaxq : (0 : ℚ) ≤ (maxW : ℚ) := by exact_mod_cast hmax
  have hminq : (0 : ℚ) ≤ min ((minW : ℚ) * 2 ^ (a - 1) +
      (minW : ℚ) * 2 ^ (a - 1) * (1 / 4) * u) (maxW : ℚ) :=
    le_min hbpre hmaxq
  refine ⟨calculateBackoff_eq minW maxW a u, ?_, ?_, ?_, ?_⟩
  · rw [calculateBackoff_eq]
    have hc : min ((minW : ℚ) * 2 ^ (a - 1) +
        (minW : ℚ) * 2 ^ (a - 1) * (1 / 4) * 0) (maxW : ℚ) =
        ((min (minW * 2 ^ (a - 1)) maxW : Int) : ℚ) := by
      push_cast
      ring_nf
    rw [hc, durOfFloat_intCast]
  · rw [calculateBackoff_eq]
    unfold durOfFloat
    rw [if_pos hminq]
    exact Int.le_floor.mpr (by exact_mod_cast hminq)
  · rw [calculateBackoff_eq]
    unfold durOfFloat
    rw [if_pos hminq]
    have h1 : (⌊min ((minW : ℚ) * 2 ^ (a - 1) +
        (minW : ℚ) * 2 ^ (a - 1) * (1 / 4) * u) (maxW : ℚ)⌋ : Int) ≤ ⌊((maxW : Int) : ℚ)⌋ :=
      Int.floor_le_floor (min_le_right _ _)
    simpa using h1
  · rw [calculateBackoff_eq]
    norm_num
    rw [show ((3 : ℚ) = ((3 : Int) : ℚ)) from by norm_num, durOfFloat_intCast]
    norm_num

/-- C4 witness: at minWait = 10ns, maxWait = 100ns, attempt 2 and
zero jitter the backoff is exactly `min(10·2, 100) = 20`. -/
theorem calculateBackoff_bounds_witness :
    Retrier.calculateBackoff ⟨0, 10, 100⟩ 2 0 = min (10 * 2 ^ (2 - 1)) 100 :=
  (calculateBackoff_bounds 10 100 2 0 (by norm_num) (by norm_num) (by norm_num)
    (by norm_num) (by norm_num)).2.1

/-- C1: for every retrier and both instantiations (`Do` over
`Response`, `DoRaw` over `RawResponse`): when 0-based attempt
`k ≤ maxRetries` succeeds after `k` retryable API failures and no
cancellation, the loop returns that success having performed exactly
`k + 1` attempts (1-based attempt `k + 1`); when all `maxRetries + 1`
attempts fail retryably, it performs exactly `maxRetries + 1`
attempts and returns the last error observed. -/
theorem retrier_success_and_exhaustion (r : Retrier)
    (waitCancel ctxErr : Nat → Option GoError) :
    ((∀ (fn : Nat → Except GoError Response) (e : Nat → APIError) (k : Nat) (resp : Response),
        k ≤ r.maxRetries →
        (∀ i, i < k → fn i = .error (.api (e i))) →
        (∀ i, i < k → (e i).Retryable = true) →
        (∀ i, i < k → ctxErr i = none) →
        (∀ i, 1 ≤ i → i ≤ k → waitCancel i = none) →
        fn k = .ok resp →
        r.Do fn waitCancel ctxErr = (.ok resp, k + 1)) ∧
      (∀ (fn : Nat → Except GoError RawResponse) (e : Nat → APIError) (k : Nat)
          (resp : RawResponse),
        k ≤ r.maxRetries →
        (∀ i, i < k → fn i = .error (.api (e i))) →
        (∀ i, i < k → (e i).Retryable = true) →
        (∀ i, i < k → ctxErr i = none) →
        (∀ i, 1 ≤ i → i ≤ k → waitCancel i = none) →
        fn k = .ok resp →
        r.DoRaw fn waitCancel ctxErr = (.ok resp, k + 1))) ∧
    ((∀ (fn : Nat → Except GoError Response) (e : Nat → APIError),
        (∀ i, i ≤ r.maxRetries → fn i = .error (.api (e i))) →
        (∀ i, i ≤ r.maxRetries → (e i).Retryable = true) →
        (∀ i, i ≤ r.maxRetries → ctxErr i = none) →
        (∀ i, 1 ≤ i → i ≤ r.maxRetries → waitCancel i = none) →
        r.Do fn waitCancel ctxErr =
          (.error (.api (e r.maxRetries)), r.maxRetries + 1)) ∧
      (∀ (fn : Nat → Except GoError RawResponse) (e : Nat → APIError),
        (∀ i, i ≤ r.maxRetries → fn i = .error (.api (e i))) →
        (∀ i, i ≤ r.maxRetries → (e i).Retryable = true) →
        (∀ i, i ≤ r.maxRetries → ctxErr i = none) →
        (∀ i, 1 ≤ i → i ≤ r.maxRetries → waitCancel i = none) →
        r.DoRaw fn waitCancel ctxErr =
          (.error (.api (e r.maxRetries)), r.maxRetries + 1))) := by
  refine ⟨⟨?_, ?_⟩, ?_, ?_⟩
  · intro fn e k resp hk hf hret hc hw hok
    exact doLoop_success fn waitCancel ctxErr r.maxRetries k resp
      (fun i => GoError.api (e i)) hk hf
      (fun i hi => by simpa [shouldRetry] using hret i hi) hc hw hok
  · intro fn e k resp hk hf hret hc hw hok
    exact doLoop_success fn waitCancel ctxErr r.maxRetries k resp
      (fun i => GoError.api (e i)) hk hf
      (fun i hi => by simpa [shouldRetry] using hret i hi) hc hw hok
  · intro fn e hf hret hc hw
    exact doLoop_exhaust fn waitCancel ctxErr r.maxRetries
      (fun i => GoError.api (e i)) hf
      (fun i hi => by simpa [shouldRetry] using hret i hi) hc hw
  · intro fn e hf hret hc hw
    exact doLoop_exhaust fn waitCancel ctxErr r.maxRetries
      (fun i => GoError.api (e i)) hf
      (fun i hi => by simpa [shouldRetry] using hret i hi) hc hw

/-- C1 witness: with maxRetries = 1, a retryable 503 on attempt 0 and
success on attempt 1, `Do` returns the success after exactly 2
attempts. -/
theorem retrier_success_and_exhaustion_witness :
    Retrier.Do ⟨1, 0, 0⟩
      (fun i => if i = 0
        then .error (.api ⟨"", "unavailable", [], 503, ""⟩)
        else .ok ⟨"ok", 200, ""⟩)
      (fun _ => none) (fun _ => none) = (.ok ⟨"ok", 200, ""⟩, 2) :=
  (retrier_success_and_exhaustion ⟨1, 0, 0⟩ (fun _ => none) (fun _ => none)).1.1
    _ (fun _ => ⟨"", "unavailable", [], 503, ""⟩) 1 ⟨"ok", 200, ""⟩
    (by norm_num)
    (fun i hi => by interval_cases i <;> rfl)
    (fun i hi => rfl)
    (fun i _ => rfl)
    (fun i _ _ => rfl)
    rfl

/-- C3: for both instantiations, a non-retryable failure — an API
error whose status is outside the retryable set, or any non-API
error — at 0-based attempt `k` ends the loop at once with that error
after exactly `k + 1` attempts (exactly 1 when `k = 0`). -/
theorem retrier_nonretryable_immediate (r : Retrier)
    (waitCancel ctxErr : Nat → Option GoError) :
    (∀ (fn : Nat → Except GoError Response) (e : Nat → APIError) (k : Nat) (err : GoError),
      k ≤ r.maxRetries →
      (∀ i, i < k → fn i = .error (.api (e i))) →
      (∀ i, i < k → (e i).Retryable = true) →
      (∀ i, i < k → ctxErr i = none) →
      (∀ i, 1 ≤ i → i ≤ k → waitCancel i = none) →
      fn k = .error err → shouldRetry err = false →
      r.Do fn waitCancel ctxErr = (.error err, k + 1)) ∧
    (∀ (fn : Nat → Except GoError RawResponse) (e : Nat → APIError) (k : Nat) (err : GoError),
      k ≤ r.maxRetries →
      (∀ i, i < k → fn i = .error (.api (e i))) →
      (∀ i, i < k → (e i).Retryable = true) →
      (∀ i, i < k → ctxErr i = none) →
      (∀ i, 1 ≤ i → i ≤ k → waitCancel i = none) →
      fn k = .error err → shouldRetry err = false →
      r.DoRaw fn waitCancel ctxErr = (.error err, k + 1)) := by
  constructor
  · intro fn e k err hk hf hret hc hw hfk hnr
    exact doLoop_nonretryable fn waitCancel ctxErr r.maxRetries k err
      (fun i => GoError.api (e i)) hk hf
      (fun i hi => by simpa [shouldRetry] using hret i hi) hc hw hfk hnr
  · intro fn e k err hk hf hret hc hw hfk hnr
    exact doLoop_nonretryable fn waitCancel ctxErr r.maxRetries k err
      (fun i => GoError.api (e i)) hk hf
      (fun i hi => by simpa [shouldRetry] using hret i hi) hc hw hfk hnr

/-- C3 witness: with maxRetries = 3, a 400 API error on the first
attempt makes `Do` return it immediately after exactly 1 attempt. -/
theorem retrier_nonretryable_immediate_witness :
    Retrier.Do ⟨3, 0, 0⟩
      (fun _ => .error (.api ⟨"", "bad request", [], 400, ""⟩))
      (fun _ => none) (fun _ => none) =
      (.error (.api ⟨"", "bad request", [], 400, ""⟩), 1) :=
  (retrier_nonretryable_immediate ⟨3, 0, 0⟩ (fun _ => none) (fun _ => none)).1
    _ (fun _ => ⟨"", "bad request", [], 400, ""⟩) 0 _
    (by norm_num)
    (fun i hi => absurd hi (by omega))
    (fun i hi => absurd hi (by omega))
    (fun i hi => absurd hi (by omega))
    (fun i h1 h2 => absurd (le_trans h1 h2) (by omega))
    rfl
    (by decide)

/-- C7: for both instantiations, if cancellation wins the backoff
race preceding 0-based attempt `k ≥ 1` (after `k` retryable failures),
the loop aborts before that attempt and returns the context's error,
having performed exactly `k` attempts. -/
theorem retrier_cancel_during_wait (r : Retrier)
    (waitCancel ctxErr : Nat → Option GoError) :
    (∀ (fn : Nat → Except GoError Response) (e : Nat → APIError) (k : Nat) (ce : GoError),
      1 ≤ k → k ≤ r.maxRetries →
      (∀ i, i < k → fn i = .error (.api (e i))) →
      (∀ i, i < k → (e i).Retryable = true) →
      (∀ i, i < k → ctxErr i = none) →
      (∀ i, 1 ≤ i → i < k → waitCancel i = none) →
      waitCancel k = some ce →
      r.Do fn waitCancel ctxErr = (.error ce, k)) ∧
    (∀ (fn : Nat → Except GoError RawResponse) (e : Nat → APIError) (k : Nat) (ce : GoError),
      1 ≤ k → k ≤ r.maxRetries →
      (∀ i, i < k → fn i = .error (.api (e i))) →
      (∀ i, i < k → (e i).Retryable = true) →
      (∀ i, i < k → ctxErr i = none) →
      (∀ i, 1 ≤ i → i < k → waitCancel i = none) →
      waitCancel k = some ce →
      r.DoRaw fn waitCancel ctxErr = (.error ce, k)) := by
  constructor
  · intro fn e k ce hk1 hk hf hret hc hw hwk
    exact doLoop_waitCancel fn waitCancel ctxErr r.maxRetries k ce
      (fun i => GoError.api (e i)) hk1 hk hf
      (fun i hi => by simpa [shouldRetry] using hret i hi) hc hw hwk
  · intro fn e k ce hk1 hk hf hret hc hw hwk
    exact doLoop_waitCancel fn waitCancel ctxErr r.maxRetries k ce
      (fun i => GoError.api (e i)) hk1 hk hf
      (fun i hi => by simpa [shouldRetry] using hret i hi) hc hw hwk

/-- C7 witness: with maxRetries = 2, a retryable 503 on attempt 0 and
cancellation during the wait preceding attempt 1, `Do` returns the
cancellation error with exactly 1 attempt performed. -/
theorem retrier_cancel_during_wait_witness :
    Retrier.Do ⟨2, 0, 0⟩
      (fun _ => .error (.api ⟨"", "unavailable", [], 503, ""⟩))
      (fun _ => some .canceled) (fun _ => none) = (.error .canceled, 1) :=
  (retrier_cancel_during_wait ⟨2, 0, 0⟩ (fun _ => some .canceled) (fun _ => none)).1
    _ (fun _ => ⟨"", "unavailable", [], 503, ""⟩) 1 .canceled
    (by norm_num) (by norm_num)
    (fun i hi => by interval_cases i <;> rfl)
    (fun i hi => rfl)
    (fun i _ => rfl)
    (fun i h1 h2 => absurd (lt_of_le_of_lt h1 h2) (by omega))
    rfl

/-- C10: for both instantiations, when 0-based attempt `k` fails with
a retryable API error but the context is already cancelled at the
check that follows, the loop returns the context's error — not the
API error — after exactly `k + 1` attempts. -/
theorem retrier_ctx_over_api_error (r : Retrier)
    (waitCancel ctxErr : Nat → Option GoError) :
    (∀ (fn : Nat → Except GoError Response) (e : Nat → APIError) (k : Nat)
        (ek : APIError) (ce : GoError),
      k ≤ r.maxRetries →
      (∀ i, i < k → fn i = .error (.api (e i))) →
      (∀ i, i < k → (e i).Retryable = true) →
      (∀ i, i < k → ctxErr i = none) →
      (∀ i, 1 ≤ i → i ≤ k → waitCancel i = none) →
      fn k = .error (.api ek) → ek.Retryable = true →
      ctxErr k = some ce →
      r.Do fn waitCancel ctxErr = (.error ce, k + 1)) ∧
    (∀ (fn : Nat → Except GoError RawResponse) (e : Nat → APIError) (k : Nat)
        (ek : APIError) (ce : GoError),
      k ≤ r.maxRetries →
      (∀ i, i < k → fn i = .error (.api (e i))) →
      (∀ i, i < k → (e i).Retryable = true) →
      (∀ i, i < k → ctxErr i = none) →
      (∀ i, 1 ≤ i → i ≤ k → waitCancel i = none) →
      fn k = .error (.api ek) → ek.Retryable = true →
      ctxErr k = some ce →
      r.DoRaw fn waitCancel ctxErr = (.error ce, k + 1)) := by
  constructor
  · intro fn e k ek ce hk hf hret hc hw hfk hrk hck
    exact doLoop_ctxAfterFail fn waitCancel ctxErr r.maxRetries k (.api ek) ce
      (fun i => GoError.api (e i)) hk hf
      (fun i hi => by simpa [shouldRetry] using hret i hi) hc hw hfk
      (by simpa [shouldRetry] using hrk) hck
  · intro fn e k ek ce hk hf hret hc hw hfk hrk hck
    exact doLoop_ctxAfterFail fn waitCancel ctxErr r.maxRetries k (.api ek) ce
      (fun i => GoError.api (e i)) hk hf
      (fun i hi => by simpa [shouldRetry] using hret i hi) hc hw hfk
      (by simpa [shouldRetry] using hrk) hck

/-- C10 witness: with maxRetries = 2, a retryable 503 on attempt 0
and a context already cancelled at the post-attempt check, `Do`
returns the cancellation error — not the 503 — after exactly 1
attempt. -/
theorem retrier_ctx_over_api_error_witness :
    Retrier.Do ⟨2, 0, 0⟩
      (fun _ => .error (.api ⟨"", "unavailable", [], 503, ""⟩))
      (fun _ => none) (fun _ => some .canceled) = (.error .canceled, 1) :=
  (retrier_ctx_over_api_error ⟨2, 0, 0⟩ (fun _ => none) (fun _ => some .canceled)).1
    _ (fun _ => ⟨"", "unavailable", [], 503, ""⟩) 0 ⟨"", "unavailable", [], 503, ""⟩
    .canceled
    (by norm_num)
    (fun i hi => absurd hi (by omega))
    (fun i hi => absurd hi (by omega))
    (fun i hi => absurd hi (by omega))
    (fun i h1 h2 => absurd (le_trans h1 h2) (by omega))
    rfl
    (by decide)
    rfl

end Reve
